import Mathlib

/-!
Verification of the orchestration core of the ai-hedge-fund backend.

The development shallowly embeds the relevant Python source:
* `app/backend/services/graph.py` — `create_graph`, the execution-graph
  builder (nodes and edges recorded in the order the source issues
  `add_node` / `add_edge` calls);
* `src/utils/llm.py` — `call_llm` (retry/fallback wrapper),
  `get_agent_model_config`, `create_default_response`, and
  `RateLimiter.wait_if_needed` (the per-provider rate governor).

Machine time is modelled with `ℚ` (retry-loop sleeps, all whole seconds,
are recorded as `ℕ`); `time.sleep` is idealized (time advances exactly by
the slept amount).  Remote calls and JSON extraction are
abstracted by a per-attempt outcome stream, since the wrapper only
distinguishes "returned a payload", "extraction returned nothing", and
"raised an exception with a message".
-/

/-! ## Execution-graph builder (`app/backend/services/graph.py`) -/

/-- A built `StateGraph`: the node names in `add_node` call order, the edge
list in `add_edge` call order, and the entry point. -/
structure BuiltGraph where
  nodes : List String
  edges : List (String × String)
  entry : String
deriving DecidableEq, Repr

/-- Line 20: `selected_agents = [a for a in selected_agents if a in ANALYST_CONFIG]`.
`config` stands for the key list of the static `ANALYST_CONFIG` mapping. -/
def filteredAgents (config selected : List String) : List String :=
  selected.filter (fun a => config.contains a)

/-- Line 23/27: the node name registered for an analyst key is `key ++ "_agent"`. -/
def taskNodeNames (config selected : List String) : List String :=
  (filteredAgents config selected).map (fun a => a ++ "_agent")

/-- Lines 38-41: the parallel branch's loop body, one
`add_edge("start_node", n); add_edge(n, "risk_management_agent")` pair per
selected agent, in order. -/
def parallelEdges : List String → List (String × String)
  | [] => []
  | n :: rest =>
      ("start_node", n) :: (n, "risk_management_agent") :: parallelEdges rest

/-- Lines 46-49: the sequential branch's loop body,
`add_edge(sel[i]_agent, sel[i+1]_agent)` for consecutive indices. -/
def consecutivePairs : List String → List (String × String)
  | a :: b :: rest => (a, b) :: consecutivePairs (b :: rest)
  | _ => []

/-- `create_graph(selected_agents)` from `app/backend/services/graph.py`
(lines 14-71), with the `ANALYST_CONFIG` key list as an explicit
parameter.  `"__end__"` stands for langgraph's `END` sentinel. -/
def createGraph (config selected : List String) : BuiltGraph :=
  let sel := filteredAgents config selected
  let ts := taskNodeNames config selected
  let topo :=
    if sel.length ≤ 6 then
      parallelEdges ts
    else
      ("start_node", ts.headD "") ::
        (consecutivePairs ts ++ [(ts.getLastD "", "risk_management_agent")])
  let topo2 :=
    if sel.length = 0 then topo ++ [("start_node", "risk_management_agent")]
    else topo
  { nodes := "start_node" :: ts ++ ["risk_management_agent", "portfolio_manager"]
    edges := topo2 ++ [("risk_management_agent", "portfolio_manager"),
                       ("portfolio_manager", "__end__")]
    entry := "start_node" }

/-- Predecessor list of a node: sources of the edges targeting it. -/
def preds (g : BuiltGraph) (n : String) : List String :=
  (g.edges.filter (fun e => e.2 == n)).map Prod.fst

/-- Successor list of a node: targets of the edges leaving it. -/
def succs (g : BuiltGraph) (n : String) : List String :=
  (g.edges.filter (fun e => e.1 == n)).map Prod.snd

/-- The node names `create_graph` reserves for its own infrastructure. -/
def reservedNodes : List String :=
  ["start_node", "risk_management_agent", "portfolio_manager", "__end__"]

/-! ## Task invoker (`src/utils/llm.py`) -/

/-- `needle` occurs as a contiguous run inside the character list. -/
def charsHaveSub : List Char → List Char → Bool
  | _, [] => true
  | [], _ :: _ => false
  | c :: rest, needle => needle.isPrefixOf (c :: rest) || charsHaveSub rest needle

/-- Substring test, `sub in s` in Python. -/
def strContains (s sub : String) : Bool :=
  charsHaveSub s.data sub.data

/-- Python's `str.lower()` (per-character, as used on ASCII error text). -/
def pyLower (s : String) : String :=
  ⟨s.data.map Char.toLower⟩

/-- Python's `str.upper()` (per-character, as used on provider names). -/
def pyUpper (s : String) : String :=
  ⟨s.data.map Char.toUpper⟩

/-- Line 150: `"429" in error_msg or "quota" in error_msg or "rate limit" in error_msg`
applied to `error_msg = str(e).lower()` (line 147). -/
def isQuotaMsg (msg : String) : Bool :=
  let m := pyLower msg
  strContains m "429" || strContains m "quota" || strContains m "rate limit"

/-- What the wrapper observes of one attempt: `llm.invoke` together with
JSON extraction (lines 136-144).  `ok r` — a payload was produced (either
structured output, or a successfully extracted and validated JSON block);
`parsedNone` — the call returned but `extract_json_from_response` yielded
nothing, so the loop body falls through without returning; `err msg` — an
exception with message `msg` was raised and caught by line 146. -/
inductive Attempt (α : Type) where
  | ok (r : α)
  | parsedNone
  | err (msg : String)
deriving DecidableEq

/-- The `metadata` portion of the shared `AgentState` that
`get_agent_model_config` consults: the per-agent model-configuration
callback of the request (`metadata["request"].get_agent_model_config`,
absent when no request was attached), and the global
`metadata["model_name"]` / `metadata["model_provider"]` entries. -/
structure AgentStateMeta where
  request : Option (String → String × String)
  modelName : Option String
  modelProvider : Option String

/-- `get_agent_model_config(state, agent_name)` (lines 211-237).  The
`portfolio_manager` branch short-circuits to the global metadata before the
request's per-agent configuration is consulted. -/
def getAgentModelConfig (state : AgentStateMeta) (agentName : String) :
    String × String :=
  if agentName = "portfolio_manager" then
    (state.modelName.getD "gpt-4.1", state.modelProvider.getD "OPENAI")
  else
    match state.request with
    | some f => f agentName
    | none => (state.modelName.getD "gpt-4.1", state.modelProvider.getD "OPENAI")

/-- Lines 98-108 of `call_llm`: take the agent-specific configuration when
both a state and an agent name are supplied, then replace a missing (falsy)
name/provider by the `"gpt-4.1"` / `"OPENAI"` defaults. -/
def resolveModelConfig (state : Option AgentStateMeta)
    (agentName : Option String) : String × String :=
  let pair :=
    match state, agentName with
    | some s, some a => getAgentModelConfig s a
    | _, _ => ("", "")
  (if pair.1 = "" then "gpt-4.1" else pair.1,
   if pair.2 = "" then "OPENAI" else pair.2)

/-- The retry loop of `call_llm` (lines 130-171), at attempt index `i` with
`fuel` iterations of `for attempt in range(max_retries)` remaining
(`fuel = max_retries - i` at every reachable call).  Returns the payload
together with the list of `time.sleep` durations (whole seconds) executed
inside the loop, in order.  The three branches mirror the source:
a Google quota error sleeps `min(30 + 10*attempt, 60)` and continues
(line 150-155); any other exception returns the default on the last attempt
(lines 160-165) and otherwise sleeps 2 s and retries (line 168); a fall-through
(extraction produced nothing, or the quota `continue` on the last attempt)
ends at line 171, `return create_default_response(pydantic_model)`. -/
def callLLMLoop (provider : String) (defFactory : Option α) (defaultResp : α)
    (attempts : ℕ → Attempt α) (maxRetries : ℕ) : ℕ → ℕ → α × List ℕ
  | _, 0 => (defaultResp, [])
  | i, fuel + 1 =>
      match attempts i with
      | .ok r => (r, [])
      | .parsedNone =>
          callLLMLoop provider defFactory defaultResp attempts maxRetries (i + 1) fuel
      | .err msg =>
          if isQuotaMsg msg && pyUpper provider == "GOOGLE" then
            let w : ℕ := min (30 + 10 * i) 60
            let rest :=
              callLLMLoop provider defFactory defaultResp attempts maxRetries (i + 1) fuel
            (rest.1, w :: rest.2)
          else if i = maxRetries - 1 then
            (defFactory.getD defaultResp, [])
          else
            let rest :=
              callLLMLoop provider defFactory defaultResp attempts maxRetries (i + 1) fuel
            (rest.1, 2 :: rest.2)

/-- `call_llm` (lines 74-171).  `modelAvailable name provider` models
`get_model(name, provider) is not None`; `defaultResp` is the value
`create_default_response(pydantic_model)` evaluates to; an `Except.error`
would model an exception escaping to the caller (the translation shows no
path produces one).  Returns the payload and the retry-loop sleep trace. -/
def callLLM (state : Option AgentStateMeta) (agentName : Option String)
    (modelAvailable : String → String → Bool) (defFactory : Option α)
    (defaultResp : α) (attempts : ℕ → Attempt α) (maxRetries : ℕ := 3) :
    Except String (α × List ℕ) :=
  let cfg := resolveModelConfig state agentName
  if modelAvailable cfg.1 cfg.2 then
    .ok (callLLMLoop cfg.2 defFactory defaultResp attempts maxRetries 0 maxRetries)
  else
    .ok (defFactory.getD defaultResp, [])

/-! ## Rate governor (`RateLimiter.wait_if_needed`, lines 13-67) -/

/-- The limiter's per-key entries: `last_call_time[key]`,
`last_call_time[key + "_reset"]` (the window start), and
`call_count[key]`; `none` models an absent dictionary entry. -/
structure LimiterEntry where
  lastCall : Option ℚ
  resetTime : Option ℚ
  count : Option ℕ
deriving DecidableEq, Repr

/-- The graduated spacing table of lines 50-55 (inline in the source):
the minimum delay demanded after `c` calls in the current window. -/
def minDelay (c : ℕ) : ℚ :=
  if c ≥ 6 then 6
  else if c ≥ 3 then 2
  else if c > 0 then 1 / 2
  else 0

/-- `RateLimiter.wait_if_needed(model_provider, model_name)` for one key's
entry, at current time `now`.  Returns the updated entry and the list of
`time.sleep` durations, in order.  Non-Google providers return untouched
(line 21).  `time.time()` after a sleep is modelled as `now` plus the time
slept so far; note the source keeps using the *stale* `now` in the
graduated-delay computation after a window wait (line 58). -/
def waitIfNeeded (modelProvider modelName : String) (st : LimiterEntry)
    (now : ℚ) : LimiterEntry × List ℚ :=
  if pyUpper modelProvider ≠ "GOOGLE" then (st, [])
  else
    -- lines 29-31: reset counters every minute
    let st1 :=
      if st.lastCall = none ∨ now - st.resetTime.getD 0 > 60 then
        { st with count := some 0, resetTime := some now }
      else st
    -- lines 34-42: window full (count ≥ 9) — wait out the window, reset
    let capSleeps :=
      if st1.count.getD 0 ≥ 9 ∧ now - st1.resetTime.getD 0 < 60 then
        [60 - (now - st1.resetTime.getD 0) + 1]
      else []
    let st2 :=
      if st1.count.getD 0 ≥ 9 ∧ now - st1.resetTime.getD 0 < 60 then
        { st1 with count := some 0, resetTime := some (now + capSleeps.sum) }
      else st1
    -- lines 47-63: graduated spacing
    let currentCount := st2.count.getD 0
    let gradSleeps :=
      if currentCount > 0 then
        match st2.lastCall with
        | some t =>
            if now - t < minDelay currentCount then [minDelay currentCount - (now - t)]
            else []
        | none => []
      else []
    let sleeps := capSleeps ++ gradSleeps
    -- lines 66-67: update tracking
    ({ st2 with count := some (st2.count.getD 0 + 1),
                lastCall := some (now + sleeps.sum) }, sleeps)

/-! ## `create_default_response` (lines 174-193) -/

/-- The field-annotation shapes `create_default_response` distinguishes:
exactly `str`, exactly `float`, exactly `int`, an annotation whose
`__origin__` is `dict` (a subscripted `dict[...]`), a `Literal[...]`
(nonempty `__args__`, here string literals as used by the agents' signal
models), or any other annotation, carrying its `__args__` if present. -/
inductive Ann where
  | str
  | float
  | int
  | dict
  | literal (first : String) (rest : List String)
  | other (args : List String)
deriving DecidableEq, Repr

/-- A Python value as stored in the defaults dictionary. -/
inductive Val where
  | vStr (s : String)
  | vFloat (x : ℚ)
  | vInt (n : ℤ)
  | vDict
  | vNone
deriving DecidableEq, Repr

/-- The per-field default of `create_default_response` (lines 178-191). -/
def defaultValue : Ann → Val
  | .str => .vStr "Error in analysis, using default"
  | .float => .vFloat 0
  | .int => .vInt 0
  | .dict => .vDict
  | .literal a _ => .vStr a
  | .other (a :: _) => .vStr a
  | .other [] => .vNone

/-- `create_default_response(model_class)`: the keyword dictionary passed to
`model_class(**default_values)`, for a model whose fields are `fields`. -/
def createDefaultResponse (fields : List (String × Ann)) : List (String × Val) :=
  fields.map (fun p => (p.1, defaultValue p.2))

/-- Pydantic validation of one value against one annotation: a `str` field
accepts any string, `float`/`int`/`dict` their shapes, a `Literal` exactly
its listed string arguments. -/
def conformsB : Val → Ann → Bool
  | .vStr _, .str => true
  | .vFloat _, .float => true
  | .vInt _, .int => true
  | .vDict, .dict => true
  | .vStr s, .literal a rest => (a :: rest).contains s
  | _, _ => false

/-- The annotations the claim restricts to: everything but the fallback
`other` shape. -/
def Ann.supported : Ann → Bool
  | .other _ => false
  | _ => true

/-! ## Lemmas about the parallel and chained edge sets -/

lemma parallelEdges_mem_start {n : String} :
    ∀ {ts : List String}, n ∈ ts → ("start_node", n) ∈ parallelEdges ts
  | m :: rest, hmem => by
    rcases List.mem_cons.mp hmem with hh | hh
    · subst hh; simp [parallelEdges]
    · simp [parallelEdges]
      exact Or.inr (Or.inr (by simpa using parallelEdges_mem_start hh))

lemma parallelEdges_mem_risk {n : String} :
    ∀ {ts : List String}, n ∈ ts → (n, "risk_management_agent") ∈ parallelEdges ts
  | m :: rest, hmem => by
    rcases List.mem_cons.mp hmem with hh | hh
    · subst hh; simp [parallelEdges]
    · simp [parallelEdges]
      exact Or.inr (Or.inr (by simpa using parallelEdges_mem_risk hh))

lemma parallelEdges_filter_target_nil {n : String} :
    ∀ {ts : List String}, n ∉ ts → n ≠ "risk_management_agent" →
      (parallelEdges ts).filter (fun e => e.2 == n) = []
  | [], _, _ => rfl
  | m :: rest, h, hr => by
    have h1 : ¬ (m = n) := fun hh => h (by simp [hh.symm])
    have h2 : n ∉ rest := fun hh => h (by simp [hh])
    have e1 : (m == n) = false := by simpa using h1
    have e2 : ("risk_management_agent" == n) = false := by
      simpa using fun hh => hr hh.symm
    simp [parallelEdges, List.filter_cons, e1, e2,
      parallelEdges_filter_target_nil h2 hr]

lemma parallelEdges_filter_target_mem {n : String} :
    ∀ {ts : List String}, n ∈ ts → ts.Nodup → n ≠ "risk_management_agent" →
      (parallelEdges ts).filter (fun e => e.2 == n) = [("start_node", n)]
  | m :: rest, hmem, hnd, hr => by
    have e2 : ("risk_management_agent" == n) = false := by
      simpa using fun hh => hr hh.symm
    rcases List.mem_cons.mp hmem with hh | hh
    · subst hh
      have hnotin : n ∉ rest := (List.nodup_cons.mp hnd).1
      simp [parallelEdges, List.filter_cons, e2,
        parallelEdges_filter_target_nil hnotin hr]
    · have h1 : ¬ (m = n) := by
        rintro rfl
        exact (List.nodup_cons.mp hnd).1 hh
      have e1 : (m == n) = false := by simpa using h1
      simp [parallelEdges, List.filter_cons, e1, e2,
        parallelEdges_filter_target_mem hh (List.nodup_cons.mp hnd).2 hr]

lemma parallelEdges_filter_source_nil {n : String} :
    ∀ {ts : List String}, n ∉ ts → n ≠ "start_node" →
      (parallelEdges ts).filter (fun e => e.1 == n) = []
  | [], _, _ => rfl
  | m :: rest, h, hs => by
    have h1 : ¬ (m = n) := fun hh => h (by simp [hh.symm])
    have h2 : n ∉ rest := fun hh => h (by simp [hh])
    have e1 : (m == n) = false := by simpa using h1
    have e0 : ("start_node" == n) = false := by
      simpa using fun hh => hs hh.symm
    simp [parallelEdges, List.filter_cons, e0, e1,
      parallelEdges_filter_source_nil h2 hs]

lemma parallelEdges_filter_source_mem {n : String} :
    ∀ {ts : List String}, n ∈ ts → ts.Nodup → n ≠ "start_node" →
      (parallelEdges ts).filter (fun e => e.1 == n) = [(n, "risk_management_agent")]
  | m :: rest, hmem, hnd, hs => by
    have e0 : ("start_node" == n) = false := by
      simpa using fun hh => hs hh.symm
    rcases List.mem_cons.mp hmem with hh | hh
    · subst hh
      have hnotin : n ∉ rest := (List.nodup_cons.mp hnd).1
      simp [parallelEdges, List.filter_cons, e0,
        parallelEdges_filter_source_nil hnotin hs]
    · have h1 : ¬ (m = n) := by
        rintro rfl
        exact (List.nodup_cons.mp hnd).1 hh
      have e1 : (m == n) = false := by simpa using h1
      simp [parallelEdges, List.filter_cons, e0, e1,
        parallelEdges_filter_source_mem hh (List.nodup_cons.mp hnd).2 hs]

lemma consecutivePairs_eq_zip : ∀ l : List String, consecutivePairs l = l.zip l.tail
  | [] => rfl
  | [_] => rfl
  | a :: b :: rest => by
    show (a, b) :: consecutivePairs (b :: rest) = _
    rw [consecutivePairs_eq_zip (b :: rest)]
    rfl

lemma consecutivePairs_mem :
    ∀ (l : List String) (i : ℕ), i + 1 < l.length →
      (l.getD i "", l.getD (i + 1) "") ∈ consecutivePairs l
  | a :: b :: rest, 0, _ => by simp [consecutivePairs]
  | a :: b :: rest, i + 1, h => by
    have ih := consecutivePairs_mem (b :: rest) i (by simpa using h)
    simp only [consecutivePairs, List.getD_cons_succ]
    exact List.mem_cons_of_mem _ ih

/-- **C3** — For every requested task-id list whose filtered count `n`
satisfies `1 ≤ n ≤ 6`, `create_graph` builds a parallel topology: the
source edges directly to each task node, every task node has exactly one
predecessor (the source) and exactly one successor (the risk aggregator),
and the risk aggregator edges to the terminal portfolio aggregator. -/
theorem createGraph_parallel_topology (config selected : List String)
    (hlen1 : 1 ≤ (taskNodeNames config selected).length)
    (hlen6 : (taskNodeNames config selected).length ≤ 6)
    (hnd : (taskNodeNames config selected).Nodup)
    (hres : ∀ n ∈ taskNodeNames config selected, n ∉ reservedNodes) :
    (∀ n ∈ taskNodeNames config selected,
        ("start_node", n) ∈ (createGraph config selected).edges ∧
        (n, "risk_management_agent") ∈ (createGraph config selected).edges ∧
        preds (createGraph config selected) n = ["start_node"] ∧
        succs (createGraph config selected) n = ["risk_management_agent"]) ∧
    ("risk_management_agent", "portfolio_manager") ∈ (createGraph config selected).edges ∧
    ("portfolio_manager", "__end__") ∈ (createGraph config selected).edges := by
  have hlensel : (filteredAgents config selected).length
      = (taskNodeNames config selected).length := by
    simp [taskNodeNames]
  have h6 : (filteredAgents config selected).length ≤ 6 := by omega
  have h0 : ¬ (filteredAgents config selected).length = 0 := by omega
  have hedges : (createGraph config selected).edges
      = parallelEdges (taskNodeNames config selected) ++
        [("risk_management_agent", "portfolio_manager"),
         ("portfolio_manager", "__end__")] := by
    simp [createGraph, h6, h0]
  refine ⟨?_, ?_, ?_⟩
  · intro n hn
    have hres' := hres n hn
    simp only [reservedNodes, List.mem_cons, List.mem_singleton, not_or] at hres'
    have hner_start := hres'.1
    have hner_risk := hres'.2.1
    have hner_port := hres'.2.2.1
    have hner_end := hres'.2.2.2.1
    refine ⟨?_, ?_, ?_, ?_⟩
    · rw [hedges]
      exact List.mem_append_left _ (parallelEdges_mem_start hn)
    · rw [hedges]
      exact List.mem_append_left _ (parallelEdges_mem_risk hn)
    · unfold preds
      rw [hedges, List.filter_append,
        parallelEdges_filter_target_mem hn hnd hner_risk]
      have etail : List.filter (fun e => e.2 == n)
          [("risk_management_agent", "portfolio_manager"),
           ("portfolio_manager", "__end__")] = [] := by
        have e1 : ("portfolio_manager" == n) = false := by
          simpa using fun hh => hner_port hh.symm
        have e2 : ("__end__" == n) = false := by
          simpa using fun hh => hner_end hh.symm
        simp [List.filter_cons, e1, e2]
      rw [etail]
      rfl
    · unfold succs
      rw [hedges, List.filter_append,
        parallelEdges_filter_source_mem hn hnd hner_start]
      have etail : List.filter (fun e => e.1 == n)
          [("risk_management_agent", "portfolio_manager"),
           ("portfolio_manager", "__end__")] = [] := by
        have e1 : ("risk_management_agent" == n) = false := by
          simpa using fun hh => hner_risk hh.symm
        have e2 : ("portfolio_manager" == n) = false := by
          simpa using fun hh => hner_port hh.symm
        simp [List.filter_cons, e1, e2]
      rw [etail]
      rfl
  · rw [hedges]; simp
  · rw [hedges]; simp

/-- Closed instance of `createGraph_parallel_topology` at the three-task
example of the spec (`tasks=[A,B,C]`, threshold 6). -/
theorem createGraph_parallel_topology_witness :
    (∀ n ∈ taskNodeNames ["aswath", "ben", "cathie"] ["aswath", "ben", "cathie"],
        ("start_node", n) ∈ (createGraph ["aswath", "ben", "cathie"] ["aswath", "ben", "cathie"]).edges ∧
        (n, "risk_management_agent") ∈ (createGraph ["aswath", "ben", "cathie"] ["aswath", "ben", "cathie"]).edges ∧
        preds (createGraph ["aswath", "ben", "cathie"] ["aswath", "ben", "cathie"]) n = ["start_node"] ∧
        succs (createGraph ["aswath", "ben", "cathie"] ["aswath", "ben", "cathie"]) n = ["risk_management_agent"]) ∧
    ("risk_management_agent", "portfolio_manager") ∈
      (createGraph ["aswath", "ben", "cathie"] ["aswath", "ben", "cathie"]).edges ∧
    ("portfolio_manager", "__end__") ∈
      (createGraph ["aswath", "ben", "cathie"] ["aswath", "ben", "cathie"]).edges :=
  createGraph_parallel_topology ["aswath", "ben", "cathie"] ["aswath", "ben", "cathie"]
    (by decide) (by decide) (by decide) (by decide)

/-- **C4** — For every requested task-id list whose filtered count is
strictly greater than the threshold 6, `create_graph` builds a chained
topology: the edge list is exactly source → first task, each task → the
next in caller order (the pairs of the list zipped with its tail), last
task → risk aggregator, risk aggregator → portfolio aggregator, portfolio
aggregator → end. -/
theorem createGraph_chained_topology (config selected : List String)
    (hlen : 6 < (taskNodeNames config selected).length) :
    (createGraph config selected).edges
      = ("start_node", (taskNodeNames config selected).headD "") ::
          ((taskNodeNames config selected).zip (taskNodeNames config selected).tail ++
            [((taskNodeNames config selected).getLastD "", "risk_management_agent"),
             ("risk_management_agent", "portfolio_manager"),
             ("portfolio_manager", "__end__")]) ∧
    (∀ i : ℕ, i + 1 < (taskNodeNames config selected).length →
        ((taskNodeNames config selected).getD i "",
         (taskNodeNames config selected).getD (i + 1) "")
          ∈ (createGraph config selected).edges) ∧
    ("start_node", (taskNodeNames config selected).headD "")
      ∈ (createGraph config selected).edges ∧
    ((taskNodeNames config selected).getLastD "", "risk_management_agent")
      ∈ (createGraph config selected).edges ∧
    ("risk_management_agent", "portfolio_manager")
      ∈ (createGraph config selected).edges := by
  have hlensel : (filteredAgents config selected).length
      = (taskNodeNames config selected).length := by
    simp [taskNodeNames]
  have h6 : ¬ (filteredAgents config selected).length ≤ 6 := by omega
  have h0 : ¬ (filteredAgents config selected).length = 0 := by omega
  have hedges : (createGraph config selected).edges
      = ("start_node", (taskNodeNames config selected).headD "") ::
          ((consecutivePairs (taskNodeNames config selected) ++
              [((taskNodeNames config selected).getLastD "", "risk_management_agent")]) ++
            [("risk_management_agent", "portfolio_manager"),
             ("portfolio_manager", "__end__")]) := by
    simp [createGraph, h6, h0]
  refine ⟨?_, ?_, ?_, ?_, ?_⟩
  · rw [hedges, consecutivePairs_eq_zip]
    simp
  · intro i hi
    rw [hedges]
    exact List.mem_cons_of_mem _
      (List.mem_append_left _
        (List.mem_append_left _ (consecutivePairs_mem _ i hi)))
  · rw [hedges]; exact List.mem_cons_self _ _
  · rw [hedges]; simp
  · rw [hedges]; simp

/-- Closed instance of `createGraph_chained_topology` at the spec's
Example 2: seven tasks A..G with threshold 6 give the chain
source→A→B→C→D→E→F→G→risk→portfolio. -/
theorem createGraph_chained_topology_witness :
    (createGraph ["a", "b", "c", "d", "e", "f", "g"]
        ["a", "b", "c", "d", "e", "f", "g"]).edges
      = ("start_node",
          (taskNodeNames ["a", "b", "c", "d", "e", "f", "g"]
            ["a", "b", "c", "d", "e", "f", "g"]).headD "") ::
          ((taskNodeNames ["a", "b", "c", "d", "e", "f", "g"]
              ["a", "b", "c", "d", "e", "f", "g"]).zip
            (taskNodeNames ["a", "b", "c", "d", "e", "f", "g"]
              ["a", "b", "c", "d", "e", "f", "g"]).tail ++
            [((taskNodeNames ["a", "b", "c", "d", "e", "f", "g"]
                ["a", "b", "c", "d", "e", "f", "g"]).getLastD "",
               "risk_management_agent"),
             ("risk_management_agent", "portfolio_manager"),
             ("portfolio_manager", "__end__")]) :=
  (createGraph_chained_topology ["a", "b", "c", "d", "e", "f", "g"]
    ["a", "b", "c", "d", "e", "f", "g"] (by decide)).1

/-- **C5, counterexample** — `create_graph` does not deduplicate: with the
recognized id `"warren_buffett"` requested twice, the `add_node` call
sequence registers the node name `"warren_buffett_agent"` twice (the graph
library rejects a duplicate registration), not exactly once, and the
filtered list still holds both occurrences. -/
theorem createGraph_duplicate_counterexample :
    (createGraph ["warren_buffett"] ["warren_buffett", "warren_buffett"]).nodes.count
        "warren_buffett_agent" = 2 ∧
    filteredAgents ["warren_buffett"] ["warren_buffett", "warren_buffett"]
      = ["warren_buffett", "warren_buffett"] := by decide

/-- **C5, amended** — `create_graph` filters the requested ids to
`ANALYST_CONFIG` membership preserving caller order (the filtered list is a
sublist of the request), but it does not deduplicate: a recognized id keeps
its full multiplicity, and exactly one node registration is issued per
filtered occurrence (total node count = filtered count + the three
infrastructure nodes). -/
theorem createGraph_filter_no_dedup (config selected : List String)
    (a : String) (ha : a ∈ config) :
    (createGraph config selected).nodes.length
        = (filteredAgents config selected).length + 3 ∧
    List.Sublist (filteredAgents config selected) selected ∧
    (filteredAgents config selected).count a = selected.count a := by
  refine ⟨?_, List.filter_sublist _, ?_⟩
  · simp [createGraph, taskNodeNames]
  · exact List.count_filter (by simpa using ha)

/-- Closed instance of `createGraph_filter_no_dedup`: an unknown id is
dropped, a doubled known id keeps both occurrences. -/
theorem createGraph_filter_no_dedup_witness :
    (createGraph ["warren_buffett"] ["warren_buffett", "unknown_id", "warren_buffett"]).nodes.length
        = (filteredAgents ["warren_buffett"] ["warren_buffett", "unknown_id", "warren_buffett"]).length + 3 ∧
    List.Sublist
      (filteredAgents ["warren_buffett"] ["warren_buffett", "unknown_id", "warren_buffett"])
      ["warren_buffett", "unknown_id", "warren_buffett"] ∧
    (filteredAgents ["warren_buffett"] ["warren_buffett", "unknown_id", "warren_buffett"]).count
        "warren_buffett"
      = ["warren_buffett", "unknown_id", "warren_buffett"].count "warren_buffett" :=
  createGraph_filter_no_dedup ["warren_buffett"]
    ["warren_buffett", "unknown_id", "warren_buffett"] "warren_buffett" (by decide)

/-! ## Task-invoker theorems -/

instance exceptDecEq {ε α : Type} [DecidableEq ε] [DecidableEq α] :
    DecidableEq (Except ε α) := fun x y =>
  match x, y with
  | .ok a, .ok b => if h : a = b then .isTrue (by rw [h]) else .isFalse (by simp [h])
  | .error a, .error b =>
      if h : a = b then .isTrue (by rw [h]) else .isFalse (by simp [h])
  | .ok _, .error _ => .isFalse (by simp)
  | .error _, .ok _ => .isFalse (by simp)

lemma callLLMLoop_all_quota {α : Type} (provider : String)
    (defFactory : Option α) (defaultResp : α) (attempts : ℕ → Attempt α)
    (maxRetries : ℕ) (hg : pyUpper provider = "GOOGLE") :
    ∀ (fuel i : ℕ),
      (∀ j, i ≤ j → j < i + fuel →
        ∃ m, attempts j = .err m ∧ isQuotaMsg m = true) →
      callLLMLoop provider defFactory defaultResp attempts maxRetries i fuel
        = (defaultResp,
            (List.range' i fuel).map (fun j => min (30 + 10 * j) 60)) := by
  intro fuel
  induction fuel with
  | zero => intro i _; rfl
  | succ fuel ih =>
      intro i hq
      obtain ⟨m, hm, hqm⟩ := hq i le_rfl (by omega)
      rw [callLLMLoop, hm]
      simp only [hqm, hg, beq_self_eq_true, Bool.true_and, if_true]
      rw [ih (i + 1) (fun j hj hjm => hq j (by omega) (by omega))]
      rw [List.range'_succ]
      simp

/-- **C6** — When the resolved provider is Google and every attempt fails
with a quota error (429 / quota / rate limit in the message), `call_llm`
sleeps the escalating backoff `min(30 + 10·attempt, 60)` seconds before
each retry and, with the whole budget exhausted, still returns the neutral
default payload `create_default_response(pydantic_model)` instead of
raising — so the surrounding run can complete with that task's entry
present. -/
theorem callLLM_google_quota_backoff {α : Type} (state : Option AgentStateMeta)
    (agentName : Option String) (modelAvailable : String → String → Bool)
    (defFactory : Option α) (defaultResp : α) (attempts : ℕ → Attempt α)
    (maxRetries : ℕ)
    (hg : pyUpper (resolveModelConfig state agentName).2 = "GOOGLE")
    (hav : modelAvailable (resolveModelConfig state agentName).1
        (resolveModelConfig state agentName).2 = true)
    (hq : ∀ j, j < maxRetries → ∃ m, attempts j = .err m ∧ isQuotaMsg m = true) :
    callLLM state agentName modelAvailable defFactory defaultResp attempts maxRetries
      = .ok (defaultResp,
          (List.range' 0 maxRetries).map (fun j => min (30 + 10 * j) 60)) := by
  have hstep : callLLM state agentName modelAvailable defFactory defaultResp
      attempts maxRetries
      = .ok (callLLMLoop (resolveModelConfig state agentName).2 defFactory
          defaultResp attempts maxRetries 0 maxRetries) := by
    unfold callLLM
    simp [hav]
  rw [hstep,
    callLLMLoop_all_quota _ _ _ _ _ hg maxRetries 0
      (fun j _ hj => hq j (by omega))]

/-- Closed instance of `callLLM_google_quota_backoff`: a Gemini task whose
three attempts all raise 429 sleeps 30 s, 40 s, 50 s and returns the neutral
default (0), not the caller's factory value (7). -/
theorem callLLM_google_quota_backoff_witness :
    callLLM (α := ℕ) (some ⟨none, some "gemini-2.0-flash", some "GOOGLE"⟩)
        (some "charlie_munger_agent") (fun _ _ => true) (some 7) 0
        (fun _ => .err "429 rate limit") 3
      = .ok (0, (List.range' 0 3).map (fun j => min (30 + 10 * j) 60)) :=
  callLLM_google_quota_backoff (some ⟨none, some "gemini-2.0-flash", some "GOOGLE"⟩)
    (some "charlie_munger_agent") (fun _ _ => true) (some 7) 0
    (fun _ => .err "429 rate limit") 3 (by decide) rfl
    (fun j _ => ⟨"429 rate limit", rfl, by decide⟩)

/-- **C1** — the code slip behind the claim: with a supplied
`default_factory` (here producing 1) and a Google provider whose three
attempts all raise quota errors, the quota branch's `continue` on the last
attempt exits the loop, and `call_llm` returns
`create_default_response(pydantic_model)` (here 0) from the line its own
comment declares unreachable — not the caller-supplied default the claim
(and the `default_factory` parameter's documentation) promises.  The
sleep trace [30, 40, 50] confirms all three attempts were consumed. -/
theorem callLLM_quota_exhaustion_ignores_factory :
    callLLM (α := ℕ) (some ⟨none, some "gemini-2.0-flash", some "GOOGLE"⟩)
        (some "charlie_munger_agent") (fun _ _ => true) (some 1) 0
        (fun _ => .err "429 quota exceeded") 3
      = .ok (0, [30, 40, 50]) ∧ (1 : ℕ) ≠ 0 := by decide

/-- **C2, counterexample** — when no model is resolvable
(`get_model` yields nothing), `call_llm` does not report a fatal error to
its caller: it returns normally, with the caller-supplied default payload
and no retried attempt (empty sleep trace). -/
theorem callLLM_no_model_counterexample :
    callLLM (α := ℕ) none none (fun _ _ => false) (some 5) 0
        (fun _ => .err "boom") 3
      = .ok (5, []) ∧
    (callLLM (α := ℕ) none none (fun _ _ => false) (some 5) 0
        (fun _ => .err "boom") 3).isOk = true := by decide

/-- **C2, amended** — When no model is resolvable, `call_llm` does not
retry (no attempt is issued, no backoff slept) and immediately returns the
default payload — `default_factory()` when supplied, else
`create_default_response(pydantic_model)` — exactly like any other
exhausted task; nothing is escalated to the caller. -/
theorem callLLM_no_model_returns_default {α : Type}
    (state : Option AgentStateMeta) (agentName : Option String)
    (modelAvailable : String → String → Bool) (defFactory : Option α)
    (defaultResp : α) (attempts : ℕ → Attempt α) (maxRetries : ℕ)
    (hav : modelAvailable (resolveModelConfig state agentName).1
        (resolveModelConfig state agentName).2 = false) :
    callLLM state agentName modelAvailable defFactory defaultResp attempts maxRetries
      = .ok (defFactory.getD defaultResp, []) := by
  unfold callLLM
  simp [hav]

/-- Closed instance of `callLLM_no_model_returns_default`. -/
theorem callLLM_no_model_returns_default_witness :
    callLLM (α := ℕ) (some ⟨none, some "nonexistent-model", some "GOOGLE"⟩)
        (some "phil_fisher_agent") (fun _ _ => false) (some 9) 0
        (fun _ => .ok 3) 3
      = .ok (9, []) :=
  callLLM_no_model_returns_default (some ⟨none, some "nonexistent-model", some "GOOGLE"⟩)
    (some "phil_fisher_agent") (fun _ _ => false) (some 9) 0 (fun _ => .ok 3) 3 rfl

/-- **C9, counterexample** — the resolution rule is not uniform: for the
`portfolio_manager` task, `get_agent_model_config` ignores the per-agent
override carried by the request (here `("claude-sonnet", "ANTHROPIC")` for
every agent) and answers the global default instead. -/
theorem getAgentModelConfig_pm_counterexample :
    getAgentModelConfig
        ⟨some (fun _ => ("claude-sonnet", "ANTHROPIC")), none, none⟩
        "portfolio_manager"
      = ("gpt-4.1", "OPENAI") ∧
    (("gpt-4.1", "OPENAI") : String × String) ≠ ("claude-sonnet", "ANTHROPIC") := by
  exact ⟨rfl, by decide⟩

/-- **C9, amended** — For every task except `portfolio_manager`, the
effective model/provider is the request's per-agent configuration when a
request is attached, else the global default from the state metadata
(falling back to gpt-4.1 / OPENAI); `portfolio_manager` alone always uses
the global state-metadata default, bypassing any per-agent override.  When
no state or agent name reaches `call_llm` at all, the resolution falls back
to gpt-4.1 / OPENAI. -/
theorem getAgentModelConfig_resolution (s : AgentStateMeta) (a : String) :
    (a ≠ "portfolio_manager" → ∀ f, s.request = some f →
        getAgentModelConfig s a = f a) ∧
    (a ≠ "portfolio_manager" → s.request = none →
        getAgentModelConfig s a
          = (s.modelName.getD "gpt-4.1", s.modelProvider.getD "OPENAI")) ∧
    getAgentModelConfig s "portfolio_manager"
      = (s.modelName.getD "gpt-4.1", s.modelProvider.getD "OPENAI") ∧
    (∀ an, resolveModelConfig none an = ("gpt-4.1", "OPENAI")) := by
  refine ⟨?_, ?_, ?_, ?_⟩
  · intro ha f hf
    simp [getAgentModelConfig, ha, hf]
  · intro ha hf
    simp [getAgentModelConfig, ha, hf]
  · simp [getAgentModelConfig]
  · intro an
    cases an <;> rfl

/-- Closed instance of `getAgentModelConfig_resolution`: a non-portfolio
agent does receive its per-agent override. -/
theorem getAgentModelConfig_resolution_witness :
    getAgentModelConfig ⟨some (fun _ => ("m1", "P1")), none, none⟩
        "warren_buffett_agent"
      = ("m1", "P1") :=
  (getAgentModelConfig_resolution
      ⟨some (fun _ => ("m1", "P1")), none, none⟩ "warren_buffett_agent").1
    (by decide) _ rfl

/-! ## Rate-governor theorems -/

/-- **C7** — For a governed (Google) provider key, if the elapsed time
since the stored window start exceeds the 60-second window, the counter is
reset to 0 and the window start to now before any delay is computed: the
call sleeps nothing, and leaves the entry with window start `now`, counter
`0 + 1`, and last-call time `now`. -/
theorem waitIfNeeded_window_reset (mp mn : String) (st : LimiterEntry)
    (now : ℚ) (hg : pyUpper mp = "GOOGLE")
    (helapsed : now - st.resetTime.getD 0 > 60) :
    (waitIfNeeded mp mn st now).2 = [] ∧
    (waitIfNeeded mp mn st now).1.resetTime = some now ∧
    (waitIfNeeded mp mn st now).1.count = some (0 + 1) ∧
    (waitIfNeeded mp mn st now).1.lastCall = some now := by
  unfold waitIfNeeded
  simp [hg, helapsed]

/-- Closed instance of `waitIfNeeded_window_reset`: a full minute after the
window started (count stuck at 7), the next call is not delayed. -/
theorem waitIfNeeded_window_reset_witness :
    (waitIfNeeded "GOOGLE" "gemini-2.0-flash" ⟨some 5, some 0, some 7⟩ 100).2 = [] ∧
    (waitIfNeeded "GOOGLE" "gemini-2.0-flash" ⟨some 5, some 0, some 7⟩ 100).1.resetTime
      = some 100 ∧
    (waitIfNeeded "GOOGLE" "gemini-2.0-flash" ⟨some 5, some 0, some 7⟩ 100).1.count
      = some (0 + 1) ∧
    (waitIfNeeded "GOOGLE" "gemini-2.0-flash" ⟨some 5, some 0, some 7⟩ 100).1.lastCall
      = some 100 :=
  waitIfNeeded_window_reset "GOOGLE" "gemini-2.0-flash" ⟨some 5, some 0, some 7⟩ 100
    (by decide) (by norm_num)

/-- **C8** — The graduated spacing table is monotonically non-decreasing in
the within-window counter (0 for the first call of a window, 1/2 s after
1–2 prior calls, 2 s after 3–5, 6 s after 6 or more), and below the safety
threshold (counter < 9, window not elapsed) the governed call time
`now + slept` is at least `minDelay c` after the previous call. -/
theorem waitIfNeeded_spacing :
    Monotone minDelay ∧
    minDelay 0 = 0 ∧ minDelay 1 = 1 / 2 ∧ minDelay 2 = 1 / 2 ∧
    minDelay 3 = 2 ∧ minDelay 4 = 2 ∧ minDelay 5 = 2 ∧
    minDelay 6 = 6 ∧ minDelay 8 = 6 ∧
    ∀ (mp mn : String) (st : LimiterEntry) (now t : ℚ) (c : ℕ),
      pyUpper mp = "GOOGLE" → st.count = some c → 1 ≤ c → c < 9 →
      st.lastCall = some t → t ≤ now → now - st.resetTime.getD 0 ≤ 60 →
      minDelay c ≤ now + ((waitIfNeeded mp mn st now).2).sum - t := by
  refine ⟨?_, by norm_num [minDelay], by norm_num [minDelay], by norm_num [minDelay],
    by norm_num [minDelay], by norm_num [minDelay], by norm_num [minDelay],
    by norm_num [minDelay], by norm_num [minDelay], ?_⟩
  · intro a b hab
    unfold minDelay
    split_ifs <;> (try norm_num) <;> omega
  · intro mp mn st now t c hg hc hc1 hc9 hlast ht h60
    have hnl : ¬ st.lastCall = none := by simp [hlast]
    have hne : ¬ (now - st.resetTime.getD 0 > 60) := by linarith
    have hcp : 0 < c := hc1
    have hc9' : ¬ c ≥ 9 := by omega
    have hsleeps : (waitIfNeeded mp mn st now).2
        = if now - t < minDelay c then [minDelay c - (now - t)] else [] := by
      unfold waitIfNeeded
      simp [hg, hnl, hne, hc, hc9', hcp, hlast]
    rw [hsleeps]
    by_cases hd : now - t < minDelay c
    · rw [if_pos hd]
      simp only [List.sum_cons, List.sum_nil]
      linarith
    · rw [if_neg hd]
      simp only [List.sum_nil]
      linarith

/-- Closed instance of `waitIfNeeded_spacing`: after 5 calls in the window,
a call issued 1 s after the previous one is spaced out to at least 2 s. -/
theorem waitIfNeeded_spacing_witness :
    minDelay 5 ≤ 59 +
        ((waitIfNeeded "GOOGLE" "gemini-2.0-flash" ⟨some 58, some 0, some 5⟩ 59).2).sum
      - 58 :=
  waitIfNeeded_spacing.2.2.2.2.2.2.2.2.2 "GOOGLE" "gemini-2.0-flash"
    ⟨some 58, some 0, some 5⟩ 59 58 5 (by decide) rfl (by norm_num) (by norm_num)
    rfl (by norm_num) (by norm_num)

/-! ## `create_default_response` theorems -/

/-- **C10** — For a model class all of whose fields are annotated `str`,
`float`, `int`, subscripted `dict`, or `Literal` (nonempty allowed values),
`create_default_response` deterministically builds one keyword per field —
the fixed neutral values "Error in analysis, using default" for `str`, 0.0
for `float`, 0 for `int`, the empty dict for `dict`, and the first allowed
value for `Literal` — and every produced value validates against its
field's annotation. -/
theorem createDefaultResponse_conforms (fields : List (String × Ann))
    (h : ∀ p ∈ fields, p.2.supported = true) :
    (createDefaultResponse fields).length = fields.length ∧
    (∀ p ∈ fields, (p.1, defaultValue p.2) ∈ createDefaultResponse fields ∧
        conformsB (defaultValue p.2) p.2 = true) ∧
    defaultValue .str = .vStr "Error in analysis, using default" ∧
    defaultValue .float = .vFloat 0 ∧
    defaultValue .int = .vInt 0 ∧
    defaultValue .dict = .vDict ∧
    ∀ (a : String) (rest : List String),
      defaultValue (.literal a rest) = .vStr a := by
  refine ⟨by simp [createDefaultResponse], ?_, rfl, rfl, rfl, rfl,
    fun a rest => rfl⟩
  intro p hp
  refine ⟨?_, ?_⟩
  · exact List.mem_map_of_mem _ hp
  · have hs := h p hp
    rcases p with ⟨nm, ann⟩
    cases ann with
    | str => rfl
    | float => rfl
    | int => rfl
    | dict => rfl
    | literal a rest => simp [defaultValue, conformsB]
    | other args => simp [Ann.supported] at hs

/-- Closed instance of `createDefaultResponse_conforms` at the
`CharlieMungerSignal` schema (`signal` a Literal, `confidence` a float,
`reasoning` a str). -/
theorem createDefaultResponse_conforms_witness :
    (createDefaultResponse
        [("signal", .literal "bullish" ["bearish", "neutral"]),
         ("confidence", .float), ("reasoning", .str)]).length
      = ([("signal", Ann.literal "bullish" ["bearish", "neutral"]),
          ("confidence", Ann.float), ("reasoning", Ann.str)] :
            List (String × Ann)).length ∧
    (∀ p ∈ ([("signal", Ann.literal "bullish" ["bearish", "neutral"]),
          ("confidence", Ann.float), ("reasoning", Ann.str)] :
            List (String × Ann)),
        (p.1, defaultValue p.2) ∈ createDefaultResponse
          [("signal", .literal "bullish" ["bearish", "neutral"]),
           ("confidence", .float), ("reasoning", .str)] ∧
        conformsB (defaultValue p.2) p.2 = true) ∧
    defaultValue .str = .vStr "Error in analysis, using default" ∧
    defaultValue .float = .vFloat 0 ∧
    defaultValue .int = .vInt 0 ∧
    defaultValue .dict = .vDict ∧
    ∀ (a : String) (rest : List String),
      defaultValue (.literal a rest) = .vStr a :=
  createDefaultResponse_conforms
    [("signal", .literal "bullish" ["bearish", "neutral"]),
     ("confidence", .float), ("reasoning", .str)] (by decide)
